import Mathlib

/-
Verification of the research-assistant pipeline application.

Shallow embedding of:
  - examples/python/research_agent/tools.py   (mock tool functions)
  - examples/python/research_agent/agent.py   (guard callbacks, stage declarations)
  - examples/python/server.py                 (SSE streaming fragment generator)
and of the sequential pipeline orchestrator, which lives in the external
agent framework and is modelled from the specification (sections 3 and 4.1).

Conventions: Python `str` is Lean `String`, Python `int` is Lean `Int`
(or `Nat` for lengths), Python `float` from `random.uniform` is modelled
as `Rat`.  Readings of the clock (`datetime.now().isoformat()`) and of the
random number generator (`random.randint`, `random.uniform`) are passed
as explicit extra arguments, constrained by hypotheses where the library
documents their ranges.  Optional / possibly-`None` values are `Option`.
-/

namespace ResearchAssistant

/-- Embedding of `google.genai.types.Part`: an optional text payload. -/
structure Part where
  text : Option String
deriving DecidableEq

/-- Embedding of `google.genai.types.Content`: a role and optional parts list. -/
structure Content where
  role : String
  parts : Option (List Part)
deriving DecidableEq

/-- Embedding of the `llm_request` object inspected by `before_model_callback`:
only its `contents` attribute is used (possibly `None`). -/
structure LlmRequest where
  contents : Option (List Content)
deriving DecidableEq

/-- Embedding of the callback context: only `agent_name` is used. -/
structure CallbackContext where
  agent_name : String
deriving DecidableEq

/-- Boolean contiguous-substring test on character lists, used to model the
Python `in` operator on strings. -/
def listInfixOf (t : List Char) : List Char → Bool
  | [] => t.isEmpty
  | c :: rest => t.isPrefixOf (c :: rest) || listInfixOf t rest

/-- Case-insensitive check from agent.py line 29: `"BLOCKED" in part.text.upper()`.
Python `str.upper` is modelled per character by `Char.toUpper`. -/
def containsBlocked (t : String) : Bool :=
  listInfixOf ("BLOCKED".toList) (t.toList.map Char.toUpper)

/-- Embedding of the per-part condition in `before_model_callback`
(agent.py lines 28-29): the part has a truthy (non-empty) `text`
whose upper-casing contains `"BLOCKED"`. -/
def partTriggers (p : Part) : Bool :=
  match p.text with
  | some t => (!(t == "")) && containsBlocked t
  | none => false

/-- Embedding of the fixed replacement `Content` built at agent.py lines 32-35. -/
def blockedContent : Content :=
  { role := ("model"),
    parts := some [ { text := some ("Request blocked by safety guardrail.") } ] }

/-- Embedding of `before_model_callback` (agent.py lines 21-36): scans all text
parts of the request contents and substitutes the fixed guardrail response when
any part triggers; the early-`return` loop is equivalently a `List.any` scan. -/
def before_model_callback (req : Option LlmRequest) : Option Content :=
  match req with
  | some r =>
      if (r.contents.getD []).any (fun c => (c.parts.getD []).any partTriggers)
      then some blockedContent
      else none
  | none => none

/-- Embedding of `before_agent_callback` (agent.py lines 14-18): it logs the
agent name (an I/O effect with no influence on control flow) and returns
`None`, so the stage always proceeds. -/
def before_agent_callback (_ctx : CallbackContext) : Option Content :=
  none

/-- Embedding of an article record produced by `search_articles` (tools.py). -/
structure Article where
  title : String
  summary : String
  source : String
  year : Int
deriving DecidableEq

/-- Embedding of the result of `search_articles` (tools.py lines 37-42). -/
structure SearchResult where
  topic : String
  articles : List Article
  total_found : Nat
  search_date : String
deriving DecidableEq

/-- Embedding of the fixed three-element candidate list built at
tools.py lines 17-36, with the f-string templates as concatenations. -/
def articlesFor (topic : String) : List Article :=
  [ { title := ("Advances in " ++ topic ++ ": A 2024 Review"),
      summary := ("This paper reviews recent developments in " ++ topic ++
        ", highlighting key breakthroughs and future directions."),
      source := ("Journal of AI Research"),
      year := 2024 },
    { title := ("Understanding " ++ topic ++ ": Challenges and Opportunities"),
      summary := ("An analysis of current challenges in " ++ topic ++
        " and emerging opportunities for researchers."),
      source := ("Nature Reviews"),
      year := 2024 },
    { title := ("Practical Applications of " ++ topic),
      summary := ("A survey of real-world applications of " ++ topic ++
        " across different industries."),
      source := ("IEEE Transactions"),
      year := 2023 } ]

/-- Python list slicing `xs[:m]` for an `int` bound `m`: a non-negative bound
takes the first `m` elements; a negative bound stops `|m|` before the end
(clamped at zero). -/
def pySliceTo {α : Type} (xs : List α) (m : Int) : List α :=
  if 0 ≤ m then xs.take m.toNat
  else xs.take (((xs.length : Int) + m).toNat)

/-- Embedding of `search_articles` (tools.py lines 7-42).  The Python default
for `max_results` is 3.  `now` is the value read from
`datetime.now().isoformat()`, passed explicitly. -/
def search_articles (topic : String) (max_results : Int) (now : String) :
    SearchResult :=
  { topic := topic,
    articles := pySliceTo (articlesFor topic) max_results,
    total_found := (articlesFor topic).length,
    search_date := now }

/-- Embedding of the result of `get_topic_stats` (tools.py lines 54-70). -/
structure TopicStats where
  topic : String
  total_publications : Int
  publications_last_year : Int
  growth_rate_percent : Rat
  top_venues : List String
  trending_subtopics : List String

/-- Round-half-to-even to an integer, the semantics of Python `round`. -/
def roundHalfEven (x : Rat) : Int :=
  if x - (⌊x⌋ : Rat) < 1/2 then ⌊x⌋
  else if 1/2 < x - (⌊x⌋ : Rat) then ⌊x⌋ + 1
  else if ⌊x⌋ % 2 = 0 then ⌊x⌋ else ⌊x⌋ + 1

/-- Python `round(x, 1)`: round to one decimal digit, half to even. -/
def pyRound1 (x : Rat) : Rat :=
  ((roundHalfEven (x * 10) : Int) : Rat) / 10

/-- Embedding of `get_topic_stats` (tools.py lines 45-70).  The three reads of
the random number generator are the explicit arguments `r1` (from
`random.randint(5000, 50000)`), `r2` (from `random.randint(500, 5000)`) and
`g` (from `random.uniform(5.0, 25.0)`, modelled as a rational). -/
def get_topic_stats (topic : String) (r1 r2 : Int) (g : Rat) : TopicStats :=
  { topic := topic,
    total_publications := r1,
    publications_last_year := r2,
    growth_rate_percent := pyRound1 g,
    top_venues := [("Nature"), ("Science"), ("IEEE"), ("ACM")],
    trending_subtopics :=
      [ topic ++ " applications",
        topic ++ " ethics",
        "automated " ++ topic ] }

/-- Embedding of `format_citation` (tools.py lines 73-84): the exact f-string
`'"{title}." {source}, {year}.'` as a concatenation. -/
def format_citation (title : String) (source : String) (year : Int) : String :=
  "\"" ++ title ++ ".\" " ++ source ++ ", " ++ toString year ++ "."

/-- Substring containment: `t` occurs contiguously inside `s`. -/
def strContains (s t : String) : Prop :=
  ∃ pre post, s = pre ++ t ++ post

/-- Modelled from the spec: a piece of a stage's prompt template — either a
literal chunk or a `\x7boutput_key\x7d` placeholder referencing a prior
stage's output (spec section 3, "Stage"; the concrete templates come from
the `instruction` strings of agent.py). -/
inductive TmplPart where
  | lit : String → TmplPart
  | ref : String → TmplPart
deriving DecidableEq

/-- Modelled from the spec: PipelineState is the append-only association of
output keys to produced values (spec section 3, "PipelineState"). -/
abbrev PipelineState : Type := List (String × String)

/-- Lookup of an output key in the pipeline state. -/
def lookupKey : PipelineState → String → Option String
  | [], _ => none
  | (k2, v) :: rest, k => if k2 = k then some v else lookupKey rest k

/-- Modelled from the spec: template rendering substitutes placeholders with
values already present in PipelineState (spec section 4.1 step b); an
unresolved placeholder is passed through verbatim (spec sections 3 and 7). -/
def render (st : PipelineState) : List TmplPart → String
  | [] => ""
  | TmplPart.lit s :: rest => s ++ render st rest
  | TmplPart.ref k :: rest =>
      (match lookupKey st k with
       | some v => v
       | none => "\x7b" ++ k ++ "\x7d") ++ render st rest

/-- Modelled from the spec: a pipeline Stage — name, prompt template, declared
tools (by name), output key, and the optional guard callbacks (spec section 3,
"Stage").  The concrete stages are declared in agent.py. -/
structure Stage where
  name : String
  template : List TmplPart
  tools : List String
  outputKey : String
  beforeAgent : Option (CallbackContext → Option Content)
  beforeModel : Option (Option LlmRequest → Option Content)

/-- Modelled from the spec: the request handed to the model-level guard for a
stage carries the conversation (the initial user message) and the stage's
rendered prompt as text parts (spec section 6, "Reasoning service"). -/
def stageRequest (msg rendered : String) : LlmRequest :=
  { contents := some
      [ { role := ("user"), parts := some [ { text := some msg } ] },
        { role := ("user"), parts := some [ { text := some rendered } ] } ] }

/-- Text carried by a guard's replacement `Content`: the concatenation of its
parts' texts. -/
def contentText (c : Content) : String :=
  String.join ((c.parts.getD []).filterMap Part.text)

/-- Modelled from the spec: the model phase of one stage (spec section 4.1
steps b-d).  Renders the template, consults the model-level guard; a
replacement from the guard is used verbatim and the external reasoning
service is not called; otherwise the service (an opaque function from the
rendered prompt to final text) produces the output.  Returns the stage's
output value and whether the service was called. -/
def modelPhase (service : String → String) (msg : String) (st : PipelineState)
    (s : Stage) : String × Bool :=
  let rendered := render st s.template
  match s.beforeModel with
  | some g =>
      match g (some (stageRequest msg rendered)) with
      | some c => (contentText c, false)
      | none => (service rendered, true)
  | none => (service rendered, true)

/-- Modelled from the spec: the outcome of one stage (spec section 4.1
step a, then the model phase).  The agent-level guard may veto execution and
substitute a fixed response; otherwise the model phase runs. -/
def stageOutcome (service : String → String) (msg : String)
    (st : PipelineState) (s : Stage) : String × Bool :=
  match s.beforeAgent with
  | some g =>
      match g { agent_name := s.name } with
      | some c => (contentText c, false)
      | none => modelPhase service msg st s
  | none => modelPhase service msg st s

/-- Modelled from the spec: running one stage stores the stage's output value
under its output key, appending to the pipeline state (spec section 4.1
step d; one writer per key). -/
def runStage (service : String → String) (msg : String) (st : PipelineState)
    (s : Stage) : PipelineState × Bool :=
  let o := stageOutcome service msg st s
  (st ++ [(s.outputKey, o.1)], o.2)

/-- Modelled from the spec: the orchestrator executes the stages strictly in
order, threading the pipeline state (spec section 4.1).  Also returns, per
stage in order, whether the external reasoning service was called. -/
def runStages (service : String → String) (msg : String) :
    List Stage → PipelineState → PipelineState × List Bool
  | [], st => (st, [])
  | s :: rest, st =>
      let r := runStage service msg st s
      let rs := runStages service msg rest r.1
      (rs.1, r.2 :: rs.2)

/-- Embedding of the `researcher` agent declaration (agent.py lines 40-54). -/
def researcher : Stage :=
  { name := ("researcher"),
    template := [TmplPart.lit
      ("You are a research specialist. When given a topic:\n" ++
       "1. Use search_articles to find relevant papers\n" ++
       "2. Use get_topic_stats to get publication statistics\n" ++
       "3. Summarize your findings concisely\n\n" ++
       "Always include specific data from the tools in your summary.")],
    tools := [("search_articles"), ("get_topic_stats")],
    outputKey := ("research_findings"),
    beforeAgent := some before_agent_callback,
    beforeModel := some before_model_callback }

/-- Embedding of the `writer` agent declaration (agent.py lines 57-77); its
instruction references the placeholder for `research_findings`. -/
def writer : Stage :=
  { name := ("writer"),
    template :=
      [ TmplPart.lit
          ("You are a technical writer. Based on the research findings below,\n" ++
           "write a concise research summary report (3-4 paragraphs).\n\n" ++
           "Research findings:\n"),
        TmplPart.ref ("research_findings"),
        TmplPart.lit
          ("\n\nInclude:\n" ++
           "- Overview of the topic and its significance\n" ++
           "- Key findings from the articles\n" ++
           "- Publication trends and statistics\n" ++
           "- Recommended areas for further study\n\n" ++
           "Use format_citation for any article references.") ],
    tools := [("format_citation")],
    outputKey := ("draft_report"),
    beforeAgent := some before_agent_callback,
    beforeModel := none }

/-- Embedding of the `reviewer` agent declaration (agent.py lines 80-98); its
instruction references the placeholder for `draft_report`. -/
def reviewer : Stage :=
  { name := ("reviewer"),
    template :=
      [ TmplPart.lit
          ("You are a quality reviewer. Review this draft report:\n\n"),
        TmplPart.ref ("draft_report"),
        TmplPart.lit
          ("\n\nEvaluate on:\n" ++
           "1. Accuracy - Are the facts and citations correct?\n" ++
           "2. Clarity - Is it easy to understand?\n" ++
           "3. Completeness - Does it cover key aspects?\n\n" ++
           "Provide a quality score (1-10) and brief feedback.\n" ++
           "If the score is 8 or above, approve with \"APPROVED\".\n" ++
           "Otherwise provide specific improvements needed.") ],
    tools := [],
    outputKey := ("review_result"),
    beforeAgent := some before_agent_callback,
    beforeModel := none }

/-- Embedding of the `root_agent` sequential pipeline (agent.py lines 101-105):
the ordered sub-agent list. -/
def pipelineStages : List Stage := [researcher, writer, reviewer]

/-- Embedding of an event as consumed by the server's streaming loop
(server.py lines 100-108): only its optional content is inspected. -/
structure SEvent where
  content : Option Content
deriving DecidableEq

/-- The non-empty text payloads of an event, in part order (server.py lines
105-107: `if event.content and event.content.parts`, then
`if hasattr(part, "text") and part.text`). -/
def eventTexts (e : SEvent) : List String :=
  match e.content with
  | some c =>
      match c.parts with
      | some ps => ps.filterMap (fun p =>
          match p.text with
          | some t => if t = "" then none else some t
          | none => none)
      | none => []
  | none => []

/-- The SSE frames yielded for one event (server.py line 108:
`yield f"data: \x7bpart.text\x7d\n\n"`). -/
def eventFrags (e : SEvent) : List String :=
  (eventTexts e).map (fun t => "data: " ++ t ++ "\n\n")

/-- Embedding of the `generate` coroutine of the streaming endpoint
(server.py lines 99-109): the frames of all events in order, followed by the
single terminal sentinel frame. -/
def generate (events : List SEvent) : List String :=
  (events.map eventFrags).flatten ++ [("data: [DONE]\n\n")]

/-- Specification-level predicate: the request has some content part whose
truthy text upper-cases to a string containing `"BLOCKED"`. -/
def HasBlockedPart (r : LlmRequest) : Prop :=
  ∃ c ∈ r.contents.getD [], ∃ p ∈ c.parts.getD [],
    ∃ t, p.text = some t ∧ containsBlocked t = true

lemma containsBlocked_empty : containsBlocked ("") = false := by decide

lemma partTriggers_iff (p : Part) :
    partTriggers p = true ↔ ∃ t, p.text = some t ∧ containsBlocked t = true := by
  cases hp : p.text with
  | none => simp [partTriggers, hp]
  | some t =>
    simp only [partTriggers, hp, Bool.and_eq_true, Bool.not_eq_true', beq_eq_false_iff_ne,
      ne_eq, Option.some.injEq]
    constructor
    · rintro ⟨-, hb⟩
      exact ⟨t, rfl, hb⟩
    · rintro ⟨t2, ht2, hb⟩
      subst ht2
      refine ⟨fun ht => ?_, hb⟩
      rw [ht, containsBlocked_empty] at hb
      exact Bool.false_ne_true hb

lemma hasBlocked_iff (r : LlmRequest) :
    ((r.contents.getD []).any (fun c => (c.parts.getD []).any partTriggers)) = true
      ↔ HasBlockedPart r := by
  simp [HasBlockedPart, List.any_eq_true, partTriggers_iff]

/-- Claim C3: `format_citation(title, source, year)` returns exactly the string
made of a double quote, the title, a period, a double quote, a space, the
source, a comma, a space, the year, and a final period; in particular
`format_citation("Test Paper", "Nature", 2024)` is `"Test Paper." Nature, 2024.`
wrapped in the leading double quote. -/
theorem format_citation_exact :
    (∀ (title source : String) (year : Int),
      format_citation title source year =
        "\"" ++ title ++ ".\" " ++ source ++ ", " ++ toString year ++ ".") ∧
    format_citation ("Test Paper") ("Nature") 2024 =
      "\"Test Paper.\" Nature, 2024." :=
  ⟨fun _ _ _ => rfl, by decide⟩

/-- Claim C4: for `max_results` between 1 and 10, `search_articles` returns
`min max_results 3` articles (3 is the fixed candidate count) and echoes the
topic verbatim. -/
theorem search_articles_respects_max_results (topic now : String) (m : Int)
    (h1 : 1 ≤ m) (h2 : m ≤ 10) :
    (search_articles topic m now).articles.length = min m.toNat 3 ∧
    (search_articles topic m now).topic = topic := by
  refine ⟨?_, rfl⟩
  have h0 : (0 : Int) ≤ m := le_trans (by norm_num) h1
  simp [search_articles, pySliceTo, if_pos h0, List.length_take, articlesFor]

/-- Witness for C4 at `topic = "ai"`, `max_results = 2`. -/
theorem search_articles_respects_max_results_witness :
    (1 : Int) ≤ 2 ∧ (2 : Int) ≤ 10 ∧
    ((search_articles ("ai") 2 ("2024-01-01T00:00:00")).articles.length =
        min (2 : Int).toNat 3 ∧
     (search_articles ("ai") 2 ("2024-01-01T00:00:00")).topic = ("ai")) :=
  ⟨by norm_num, by norm_num,
    search_articles_respects_max_results ("ai") ("2024-01-01T00:00:00") 2
      (by norm_num) (by norm_num)⟩

/-- Claim C9: `total_found` always reports the full candidate count 3, not the
number of returned articles; with `max_results = 1` the result still says
`total_found = 3` while carrying a single article. -/
theorem search_articles_total_found_fixed (topic now : String) (m : Int) :
    (search_articles topic m now).total_found = 3 ∧
    (search_articles topic 1 now).articles.length = 1 := by
  constructor
  · simp [search_articles, articlesFor]
  · simp [search_articles, pySliceTo, articlesFor]

/-- Claim C6 (generalised over every topic, including "machine learning"):
with the default `max_results` of 3, all three returned article titles embed
the topic, and `trending_subtopics` has exactly 3 entries, each embedding the
topic. -/
theorem tools_embed_topic (topic now : String) (r1 r2 : Int) (g : Rat) :
    (search_articles topic 3 now).articles.length = 3 ∧
    (((search_articles topic 3 now).articles.map Article.title).Forall
      (fun t => strContains t topic)) ∧
    (get_topic_stats topic r1 r2 g).trending_subtopics.length = 3 ∧
    (((get_topic_stats topic r1 r2 g).trending_subtopics).Forall
      (fun s => strContains s topic)) := by
  refine ⟨by simp [search_articles, pySliceTo, articlesFor], ?_, rfl, ?_⟩
  · simp only [search_articles, pySliceTo, articlesFor]
    norm_num [List.Forall]
    refine ⟨⟨("Advances in "), (": A 2024 Review"), rfl⟩,
            ⟨("Understanding "), (": Challenges and Opportunities"), rfl⟩,
            ⟨("Practical Applications of "), (""), ?_⟩⟩
    simp [strContains]
  · simp only [get_topic_stats, List.Forall]
    refine ⟨⟨(""), (" applications"), ?_⟩, ⟨(""), (" ethics"), ?_⟩,
            ⟨("automated "), (""), ?_⟩⟩ <;> simp

/-- Claim C7 counterexample: two calls of `search_articles` with identical
arguments but different clock readings return different results (the
`search_date` field records the clock), so the whole returned record is not a
function of `(topic, max_results)`. -/
theorem search_articles_clock_dependence :
    search_articles ("ai") 3 ("2024-01-01T00:00:00") ≠
      search_articles ("ai") 3 ("2024-01-01T00:00:01") := by
  intro h
  have h2 := congrArg SearchResult.search_date h
  simp [search_articles] at h2

/-- Claim C7 (amended): `format_citation` is pure and deterministic; the other
two tools are deterministic in every field that does not read an effect:
`search_articles` agrees on `topic`, `articles` and `total_found` across any
two clock readings, and `get_topic_stats` agrees on `topic`, `top_venues` and
`trending_subtopics` across any two draws of the random number generator. -/
theorem tools_deterministic_except_effects (topic now1 now2 : String)
    (m : Int) (r1 r2 r1x r2x : Int) (g gx : Rat)
    (title source : String) (year : Int) :
    (search_articles topic m now1).topic = (search_articles topic m now2).topic ∧
    (search_articles topic m now1).articles =
      (search_articles topic m now2).articles ∧
    (search_articles topic m now1).total_found =
      (search_articles topic m now2).total_found ∧
    (get_topic_stats topic r1 r2 g).topic =
      (get_topic_stats topic r1x r2x gx).topic ∧
    (get_topic_stats topic r1 r2 g).top_venues =
      (get_topic_stats topic r1x r2x gx).top_venues ∧
    (get_topic_stats topic r1 r2 g).trending_subtopics =
      (get_topic_stats topic r1x r2x gx).trending_subtopics ∧
    format_citation title source year = format_citation title source year :=
  ⟨rfl, rfl, rfl, rfl, rfl, rfl, rfl⟩

lemma roundHalfEven_cases (x : Rat) :
    roundHalfEven x = ⌊x⌋ ∨
      (roundHalfEven x = ⌊x⌋ + 1 ∧ 1/2 ≤ x - (⌊x⌋ : Rat)) := by
  unfold roundHalfEven
  split_ifs with h1 h2 h3
  · exact Or.inl rfl
  · exact Or.inr ⟨rfl, le_of_lt h2⟩
  · exact Or.inl rfl
  · exact Or.inr ⟨rfl, le_of_not_lt h1⟩

lemma roundHalfEven_bounds (x : Rat) (lo hi : Int)
    (hlo : (lo : Rat) ≤ x) (hhi : x ≤ (hi : Rat)) :
    lo ≤ roundHalfEven x ∧ roundHalfEven x ≤ hi := by
  have hfl : lo ≤ ⌊x⌋ := Int.le_floor.mpr hlo
  have hfx : (⌊x⌋ : Rat) ≤ x := Int.floor_le x
  rcases roundHalfEven_cases x with h | ⟨h, hr⟩
  · rw [h]
    refine ⟨hfl, ?_⟩
    have hc : (⌊x⌋ : Rat) ≤ (hi : Rat) := le_trans hfx hhi
    exact_mod_cast hc
  · rw [h]
    constructor
    · omega
    · have hlt : (⌊x⌋ : Rat) < x := by linarith
      have hc : (⌊x⌋ : Rat) < (hi : Rat) := lt_of_lt_of_le hlt hhi
      have hz : ⌊x⌋ < hi := by exact_mod_cast hc
      omega

/-- Claim C5: under the documented ranges of the random draws
(`randint(5000,50000)`, `randint(500,5000)`, `uniform(5.0,25.0)`), the stats
record has `growth_rate_percent` in [5, 25] with at most one decimal digit
(an integer multiple of 1/10), `total_publications` in [5000, 50000] and
`publications_last_year` in [500, 5000]. -/
theorem get_topic_stats_ranges (topic : String) (r1 r2 : Int) (g : Rat)
    (h1 : 5000 ≤ r1) (h2 : r1 ≤ 50000) (h3 : 500 ≤ r2) (h4 : r2 ≤ 5000)
    (h5 : 5 ≤ g) (h6 : g ≤ 25) :
    5 ≤ (get_topic_stats topic r1 r2 g).growth_rate_percent ∧
    (get_topic_stats topic r1 r2 g).growth_rate_percent ≤ 25 ∧
    (∃ k : Int, (get_topic_stats topic r1 r2 g).growth_rate_percent =
      (k : Rat) / 10) ∧
    5000 ≤ (get_topic_stats topic r1 r2 g).total_publications ∧
    (get_topic_stats topic r1 r2 g).total_publications ≤ 50000 ∧
    500 ≤ (get_topic_stats topic r1 r2 g).publications_last_year ∧
    (get_topic_stats topic r1 r2 g).publications_last_year ≤ 5000 := by
  have hlo : ((50 : Int) : Rat) ≤ g * 10 := by push_cast; linarith
  have hhi : g * 10 ≤ ((250 : Int) : Rat) := by push_cast; linarith
  obtain ⟨hb1, hb2⟩ := roundHalfEven_bounds (g * 10) 50 250 hlo hhi
  have hgrow : (get_topic_stats topic r1 r2 g).growth_rate_percent =
      ((roundHalfEven (g * 10) : Int) : Rat) / 10 := rfl
  have hc1 : ((50 : Int) : Rat) ≤ ((roundHalfEven (g * 10) : Int) : Rat) := by
    exact_mod_cast hb1
  have hc2 : ((roundHalfEven (g * 10) : Int) : Rat) ≤ ((250 : Int) : Rat) := by
    exact_mod_cast hb2
  refine ⟨?_, ?_, ⟨roundHalfEven (g * 10), hgrow⟩, h1, h2, h3, h4⟩
  · rw [hgrow]
    push_cast at hc1 ⊢
    linarith
  · rw [hgrow]
    push_cast at hc2 ⊢
    linarith

/-- Witness for C5 at `topic = "ai"` and the draws 6000, 700, 7. -/
theorem get_topic_stats_ranges_witness :
    ((5000 : Int) ≤ 6000 ∧ (6000 : Int) ≤ 50000 ∧ (500 : Int) ≤ 700 ∧
      (700 : Int) ≤ 5000 ∧ (5 : Rat) ≤ 7 ∧ (7 : Rat) ≤ 25) ∧
    (5 ≤ (get_topic_stats ("ai") 6000 700 7).growth_rate_percent ∧
     (get_topic_stats ("ai") 6000 700 7).growth_rate_percent ≤ 25 ∧
     (∃ k : Int, (get_topic_stats ("ai") 6000 700 7).growth_rate_percent =
       (k : Rat) / 10) ∧
     5000 ≤ (get_topic_stats ("ai") 6000 700 7).total_publications ∧
     (get_topic_stats ("ai") 6000 700 7).total_publications ≤ 50000 ∧
     500 ≤ (get_topic_stats ("ai") 6000 700 7).publications_last_year ∧
     (get_topic_stats ("ai") 6000 700 7).publications_last_year ≤ 5000) :=
  ⟨by norm_num,
   get_topic_stats_ranges ("ai") 6000 700 7 (by norm_num) (by norm_num)
     (by norm_num) (by norm_num) (by norm_num) (by norm_num)⟩

/-- Sample run event whose text part is the literal string `[DONE]`. -/
def doneTextEvent : SEvent :=
  { content := some { role := ("model"), parts := some [{ text := some ("[DONE]") }] } }

/-- Sample run event with an ordinary text part. -/
def helloTextEvent : SEvent :=
  { content := some { role := ("model"), parts := some [{ text := some ("hello") }] } }

/-- Claim C8 counterexample: when an event's text part is the literal string
`[DONE]`, its frame coincides with the sentinel frame, so the run emits the
sentinel fragment twice — "emitted exactly once" fails as stated. -/
theorem stream_sentinel_duplicated :
    (generate [doneTextEvent]).count ("data: [DONE]\n\n") = 2 := by decide

/-- Claim C8 (amended): every run of the streaming generator emits a non-empty
fragment sequence whose last element is the sentinel frame `data: [DONE]`
followed by a blank line; the fragments before it are exactly the framed
non-empty text parts of the run's events, in event order; and the sentinel
occurs exactly once provided no event frame itself equals the sentinel frame
(i.e. no event text is the literal `[DONE]`). -/
theorem stream_ends_with_sentinel (events : List SEvent) :
    generate events ≠ [] ∧
    (generate events).getLast? = some ("data: [DONE]\n\n") ∧
    (generate events).dropLast = (events.map eventFrags).flatten ∧
    (((events.map eventFrags).flatten).count ("data: [DONE]\n\n") = 0 →
      (generate events).count ("data: [DONE]\n\n") = 1) := by
  refine ⟨by simp [generate], ?_, ?_, ?_⟩
  · simp [generate]
  · simp [generate]
  · intro h
    simp [generate, List.count_append, h]

/-- Witness for C8 (amended) on a run with one ordinary text event. -/
theorem stream_ends_with_sentinel_witness :
    (([helloTextEvent].map eventFrags).flatten).count ("data: [DONE]\n\n") = 0 ∧
    (generate [helloTextEvent]).count ("data: [DONE]\n\n") = 1 :=
  ⟨by decide, (stream_ends_with_sentinel [helloTextEvent]).2.2.2 (by decide)⟩

/-- Claim C1: running the declared 3-stage pipeline (researcher, writer,
reviewer) to completion, for any reasoning service and initial user message,
yields a PipelineState whose keys are exactly `research_findings`,
`draft_report`, `review_result` in stage order, each written exactly once
(the key list has no duplicates, so no key is ever overwritten). -/
theorem pipeline_state_keys (service : String → String) (msg : String) :
    ((runStages service msg pipelineStages []).1).map Prod.fst =
      [("research_findings"), ("draft_report"), ("review_result")] ∧
    (((runStages service msg pipelineStages []).1).map Prod.fst).Nodup := by
  have h : ((runStages service msg pipelineStages []).1).map Prod.fst =
      [("research_findings"), ("draft_report"), ("review_result")] := by
    simp [pipelineStages, runStages, runStage, researcher, writer, reviewer]
  refine ⟨h, ?_⟩
  rw [h]
  decide

/-- Claim C2: the model guard substitutes the fixed guardrail response exactly
when some text part of the request contains `BLOCKED` case-insensitively, and
returns nothing otherwise; when it fires on stage 1's request, stage 1's
output is exactly `Request blocked by safety guardrail.` and the external
reasoning service is not called; when it does not fire, the service is called
on the rendered prompt and its answer is stored. -/
theorem guard_short_circuit (req : LlmRequest) (service : String → String)
    (msg : String) (st : PipelineState) :
    (HasBlockedPart req → before_model_callback (some req) = some blockedContent) ∧
    (¬ HasBlockedPart req → before_model_callback (some req) = none) ∧
    (HasBlockedPart (stageRequest msg (render st researcher.template)) →
      runStage service msg st researcher =
        (st ++ [(("research_findings"), ("Request blocked by safety guardrail."))],
          false)) ∧
    (¬ HasBlockedPart (stageRequest msg (render st researcher.template)) →
      runStage service msg st researcher =
        (st ++ [(("research_findings"), service (render st researcher.template))],
          true)) := by
  have hbm : ∀ r, HasBlockedPart r →
      before_model_callback (some r) = some blockedContent := by
    intro r h
    have hc := (hasBlocked_iff r).mpr h
    simp [before_model_callback, hc]
  have hbn : ∀ r, ¬ HasBlockedPart r →
      before_model_callback (some r) = none := by
    intro r h
    have hc : ¬ (((r.contents.getD []).any
        (fun c => (c.parts.getD []).any partTriggers)) = true) :=
      fun hx => h ((hasBlocked_iff r).mp hx)
    simp [before_model_callback, hc]
  have ea : researcher.beforeAgent = some before_agent_callback := rfl
  have em : researcher.beforeModel = some before_model_callback := rfl
  have ek : researcher.outputKey = ("research_findings") := rfl
  refine ⟨hbm req, hbn req, ?_, ?_⟩
  · intro h
    have hg := hbm _ h
    simp [runStage, stageOutcome, modelPhase, ea, em, ek, before_agent_callback,
      hg, contentText, blockedContent, String.join]
  · intro h
    have hg := hbn _ h
    simp [runStage, stageOutcome, modelPhase, ea, em, ek, before_agent_callback,
      hg]

/-- Sample model request whose single text part says BLOCKED. -/
def blockedRequest : LlmRequest :=
  { contents := some
      [{ role := ("user"), parts := some [{ text := some ("this is BLOCKED") }] }] }

/-- Witness for C2: a request whose text says BLOCKED triggers the guard, and
stage 1 run on a user message containing `blocked` stores the guardrail text
without calling the service. -/
theorem guard_short_circuit_witness :
    before_model_callback (some blockedRequest) = some blockedContent ∧
    runStage (fun _ => ("model output")) ("summarize blocked content") [] researcher =
      ([(("research_findings"), ("Request blocked by safety guardrail."))], false) := by
  have h1 : HasBlockedPart blockedRequest := (hasBlocked_iff _).mp (by decide)
  have h2 : HasBlockedPart (stageRequest ("summarize blocked content")
      (render [] researcher.template)) := (hasBlocked_iff _).mp (by decide)
  exact ⟨(guard_short_circuit blockedRequest (fun _ => ("model output"))
            ("summarize blocked content") []).1 h1,
         (guard_short_circuit blockedRequest (fun _ => ("model output"))
            ("summarize blocked content") []).2.2.1 h2⟩

/-- Claim C10: the agent-level guard returns `None` on every input, so a stage
whose pre-execution guard is `before_agent_callback` always proceeds to its
model phase (the guard never vetoes and never substitutes); and among the
three declared stages only stage 1 (researcher) carries a model-level guard,
so only that guard can short-circuit. -/
theorem agent_guard_never_vetoes :
    (∀ ctx, before_agent_callback ctx = none) ∧
    (∀ (service : String → String) (msg : String) (st : PipelineState)
        (s : Stage), s.beforeAgent = some before_agent_callback →
      stageOutcome service msg st s = modelPhase service msg st s) ∧
    researcher.beforeModel = some before_model_callback ∧
    writer.beforeModel = none ∧
    reviewer.beforeModel = none ∧
    researcher.beforeAgent = some before_agent_callback ∧
    writer.beforeAgent = some before_agent_callback ∧
    reviewer.beforeAgent = some before_agent_callback := by
  refine ⟨fun _ => rfl, ?_, rfl, rfl, rfl, rfl, rfl, rfl⟩
  intro service msg st s h
  simp [stageOutcome, h, before_agent_callback]

/-- Witness for C10 on the writer stage with a concrete service. -/
theorem agent_guard_never_vetoes_witness :
    writer.beforeAgent = some before_agent_callback ∧
    stageOutcome (fun _ => ("text")) ("message") [] writer =
      modelPhase (fun _ => ("text")) ("message") [] writer :=
  ⟨rfl, agent_guard_never_vetoes.2.1 (fun _ => ("text")) ("message") [] writer rfl⟩

end ResearchAssistant
